import Mathlib

/-!
Verification development for the Sentinel automation engine
(`src/engine/src/`): shallow embedding of the task manager, scheduler,
step executor and verifier, with theorems checking the natural-language
specification against the code.

Conventions of the embedding:
* `DateTime<Utc>` timestamps are seconds since the Unix epoch (`Nat`);
  adding `ChronoDuration::days(n)` is adding `n * 86400`.
* Concurrent maps (`DashMap`) are association lists with first-match
  lookup; `get_mut`-style in-place mutation is `mapModify`.
* `u32` counters are `Nat` with arithmetic reduced mod `2 ^ 32` where the
  Rust code could overflow (release-build wrapping semantics); `u8`
  weekday arithmetic is reduced mod `256` at the one place it can wrap.
* Fallible Rust functions returning `Result<T>` become
  `Except TaskManagerError T` (resp. a dedicated error type).
* `serde_json::Value` is the inductive `Json`; JSON numbers are carried
  as `Int` (the claims under study never compare fractional values, only
  JSON kinds).
-/

set_option autoImplicit false

namespace Sentinel

/-! ## Association-list maps (model of `DashMap` / `serde_json::Map`) -/

def mapLookup {α : Type} : List (String × α) → String → Option α
  | [], _ => none
  | (k, v) :: rest, key => if k = key then some v else mapLookup rest key

def mapInsert {α : Type} : List (String × α) → String → α → List (String × α)
  | [], key, v => [(key, v)]
  | (k, w) :: rest, key, v =>
    if k = key then (key, v) :: rest else (k, w) :: mapInsert rest key v

def mapModify {α : Type} : List (String × α) → String → (α → α) → List (String × α)
  | [], _, _ => []
  | (k, w) :: rest, key, f =>
    if k = key then (k, f w) :: rest else (k, w) :: mapModify rest key f

def mapRemove {α : Type} (m : List (String × α)) (key : String) : List (String × α) :=
  m.filter (fun p => decide (p.1 ≠ key))

/-! ## JSON values (model of `serde_json::Value`) -/

inductive Json where
  | null
  | bool (b : Bool)
  | num (n : Int)
  | str (s : String)
  | arr (xs : List Json)
  | obj (fields : List (String × Json))

/-- Model of `Value::as_f64` restricted to the numeric kinds the claims
exercise: a JSON number yields its value, everything else `none`. -/
def Json.asNum : Json → Option Int
  | .num n => some n
  | _ => none

/-- A JSON value that is neither an object nor an array — the schemas the
spec calls "scalar". -/
def Json.isScalar : Json → Bool
  | .arr _ => false
  | .obj _ => false
  | _ => true

/-! ## Data model (`src/engine/src/types.rs`) -/

inductive TaskSource where
  | UserManual
  | UserChat
  | AiAutoDetected
  | AiSuggested
  | Scheduled
deriving DecidableEq

inductive TaskStatus where
  | Pending
  | Approved
  | InProgress
  | Paused
  | Completed
  | Failed
  | Cancelled
deriving DecidableEq

/-- Rendering of `format!("{:?}", status)` on `TaskStatus`. -/
def statusDebug : TaskStatus → String
  | .Pending => "Pending"
  | .Approved => "Approved"
  | .InProgress => "InProgress"
  | .Paused => "Paused"
  | .Completed => "Completed"
  | .Failed => "Failed"
  | .Cancelled => "Cancelled"

structure ApprovalFlags where
  pre_approval_required : Bool
  pre_approval_granted : Bool
  pre_approval_timestamp : Option Nat
  post_approval_required : Bool
  post_approval_granted : Bool
  post_approval_timestamp : Option Nat
  auto_approved : Bool
deriving DecidableEq

def ApprovalFlags.default : ApprovalFlags :=
  { pre_approval_required := true
    pre_approval_granted := false
    pre_approval_timestamp := none
    post_approval_required := true
    post_approval_granted := false
    post_approval_timestamp := none
    auto_approved := false }

inductive ScheduleType where
  | Once
  | Recurring
deriving DecidableEq

inductive Frequency where
  | Daily
  | Weekly
  | Monthly
  | Custom
deriving DecidableEq

/-- `days_of_week` entries are `u8` weekday indices; `interval` is `u32` days. -/
structure Recurrence where
  frequency : Frequency
  interval : Option Nat
  days_of_week : Option (List Nat)
  time : Option String

structure Scheduling where
  schedule_type : ScheduleType
  next_run : Nat
  recurrence : Option Recurrence
  enabled : Bool

/-- `execution_count` is a `u32` in the source. -/
structure Automation where
  is_repetitive : Bool
  auto_run_enabled : Bool
  execution_count : Nat
deriving DecidableEq

def Automation.default : Automation :=
  { is_repetitive := false, auto_run_enabled := false, execution_count := 0 }

inductive Action where
  | Navigate
  | Click
  | TypeText
  | Extract
  | Wait
  | Verify
  | Submit
deriving DecidableEq

/-- Rendering of `format!("{:?}", action)`; the Rust variant spelled
`Type` is `TypeText` here because `Type` is reserved in Lean. -/
def actionDebug : Action → String
  | .Navigate => "Navigate"
  | .Click => "Click"
  | .TypeText => "Type"
  | .Extract => "Extract"
  | .Wait => "Wait"
  | .Verify => "Verify"
  | .Submit => "Submit"

inductive VerificationType where
  | Schema
  | SanityCheck
  | ElementPresence
  | NumericRange
deriving DecidableEq

structure RetryConfig where
  max_retries : Nat
  retry_delay_ms : Nat
deriving DecidableEq

def RetryConfig.default : RetryConfig :=
  { max_retries := 2, retry_delay_ms := 1000 }

structure Step where
  step_id : String
  action : Action
  target : String
  parameters : Option (List (String × Json))
  expected_schema : Option Json
  verification : List VerificationType
  retry_config : RetryConfig
  requires_approval : Bool

structure Workflow where
  workflow_id : String
  steps : List Step

structure ElementInfo where
  selector : String
  semantic_type : String
  timestamp : Nat

structure PageState where
  url : String
  initial_state_hash : String
  elements_seen : List ElementInfo
  elements_relevant : List String

structure CheckResult where
  check_type : String
  passed : Bool
  message : Option String

structure VerificationResult where
  passed : Bool
  checks : List CheckResult

structure ExecutionLogEntry where
  step_id : String
  timestamp : Nat
  action : String
  dom_snapshot_hash : String
  extracted_data : Option Json
  verification_result : Option VerificationResult
  retry_count : Nat

structure Task where
  task_id : String
  task_name : String
  task_source : TaskSource
  status : TaskStatus
  approval_flags : ApprovalFlags
  scheduling : Option Scheduling
  automation : Automation
  workflow : Workflow
  current_step : Option String
  page_state : Option PageState
  execution_log : List ExecutionLogEntry
  created_at : Nat
  updated_at : Nat

structure RecurringRule where
  rule_id : String
  pattern : String
  auto_create_task : Bool
  suggest_task : Bool
  workflow_template : Option String

structure WorkflowHistoryEntry where
  task_id : String
  executed_at : Nat
  success : Bool
  duration_ms : Nat

structure AutomationPreferences where
  default_pre_approval : Bool
  default_post_approval : Bool
  auto_approve_repetitive_after : Nat

def AutomationPreferences.default : AutomationPreferences :=
  { default_pre_approval := true
    default_post_approval := true
    auto_approve_repetitive_after := 3 }

structure ProjectMemory where
  project_id : String
  project_name : String
  recurring_rules : List RecurringRule
  workflow_history : List WorkflowHistoryEntry
  automation_preferences : AutomationPreferences
  created_at : Nat
  updated_at : Nat

/-! ## Verifier (`src/engine/src/verifier.rs`) -/

/-- The catch-all arm of `matches_schema`: the `matches!` macro checking
that data and schema are the same JSON value kind. -/
def sameJsonKind : Json → Json → Bool
  | .null, .null => true
  | .bool _, .bool _ => true
  | .num _, .num _ => true
  | .str _, .str _ => true
  | .arr _, .arr _ => true
  | .obj _, .obj _ => true
  | _, _ => false

/-- `Verifier::matches_schema`. -/
def matches_schema (data schema : Json) : Bool :=
  match data, schema with
  | .obj data_obj, .obj schema_obj =>
    schema_obj.all (fun kv => (mapLookup data_obj kv.1).isSome)
  | .arr data_arr, .arr schema_arr =>
    data_arr.length == schema_arr.length
  | d, s => sameJsonKind d s

/-- `Verifier::verify_schema`. -/
def verify_schema (step : Step) (extracted_data : Option Json) : CheckResult :=
  match step.expected_schema with
  | some expected_schema =>
    match extracted_data with
    | some data =>
      if matches_schema data expected_schema then
        { check_type := "schema", passed := true
          message := some "Schema validation passed" }
      else
        { check_type := "schema", passed := false
          message := some "Schema validation failed" }
    | none =>
      { check_type := "schema", passed := false
        message := some "No data to validate" }
  | none =>
    { check_type := "schema", passed := true
      message := some "No schema defined, skipping" }

/-- `Verifier::verify_sanity_check`. -/
def verify_sanity_check (extracted_data : Option Json) : CheckResult :=
  match extracted_data with
  | some data =>
    match data with
    | .null =>
      { check_type := "sanity_check", passed := false
        message := some "Data is null" }
    | .obj fields =>
      if fields.isEmpty then
        { check_type := "sanity_check", passed := false
          message := some "Data object is empty" }
      else
        { check_type := "sanity_check", passed := true
          message := some "Sanity check passed" }
    | _ =>
      { check_type := "sanity_check", passed := true
        message := some "Sanity check passed" }
  | none =>
    { check_type := "sanity_check", passed := false
      message := some "No data to check" }

/-- `Verifier::verify_element_presence` (documented always-pass limitation). -/
def verify_element_presence (_step : Step) (_dom_hash : String) : CheckResult :=
  { check_type := "element_presence", passed := true
    message := some "Element presence verified by executor" }

/-- The `max_value` half of `Verifier::verify_numeric_range`, reached when
the minimum bound was absent or satisfied. -/
def numeric_range_max_check (num : Int) (params : List (String × Json)) : CheckResult :=
  match (mapLookup params "max_value").bind Json.asNum with
  | some maxv =>
    if num > maxv then
      { check_type := "numeric_range", passed := false
        message := some ("Value " ++ toString num ++ " is above maximum " ++ toString maxv) }
    else
      { check_type := "numeric_range", passed := true
        message := some "Numeric range check passed" }
  | none =>
    { check_type := "numeric_range", passed := true
      message := some "Numeric range check passed" }

/-- `Verifier::verify_numeric_range`. -/
def verify_numeric_range (step : Step) (extracted_data : Option Json) : CheckResult :=
  match extracted_data with
  | some data =>
    match data.asNum with
    | some num =>
      match step.parameters with
      | some params =>
        (match (mapLookup params "min_value").bind Json.asNum with
         | some minv =>
           if num < minv then
             { check_type := "numeric_range", passed := false
               message := some ("Value " ++ toString num ++ " is below minimum " ++ toString minv) }
           else numeric_range_max_check num params
         | none => numeric_range_max_check num params)
      | none =>
        { check_type := "numeric_range", passed := true
          message := some "Numeric range check passed" }
    | none =>
      { check_type := "numeric_range", passed := true
        message := some "Not a numeric value, skipping range check" }
  | none =>
    { check_type := "numeric_range", passed := false
      message := some "No data to check" }

/-- `Verifier::verify_step`: evaluate every declared verification kind and
AND the results. -/
def verify_step (step : Step) (extracted_data : Option Json) (dom_hash : String) :
    VerificationResult :=
  let checks := step.verification.map (fun vt =>
    match vt with
    | .Schema => verify_schema step extracted_data
    | .SanityCheck => verify_sanity_check extracted_data
    | .ElementPresence => verify_element_presence step dom_hash
    | .NumericRange => verify_numeric_range step extracted_data)
  { passed := checks.all (fun c => c.passed), checks := checks }

/-! ## Task manager (`src/engine/src/task_manager.rs`) -/

inductive TaskManagerError where
  | TaskNotFound (id : String)
  | ApprovalRequired (id : String)
  | InvalidStateTransition (fromState toState : String)
  | TaskInProgress (id : String)
deriving DecidableEq

inductive ApprovalType where
  | PreApproval
  | PostApproval
deriving DecidableEq

/-- The task manager's `DashMap<String, Task>`. -/
abbrev TaskMap := List (String × Task)

/-- The project-memory map held by the memory manager. -/
abbrev ProjectMap := List (String × ProjectMemory)

/-- `TaskManager::can_start_task`. -/
def can_start_task (tasks : TaskMap) (task_id : String) : Except TaskManagerError Bool :=
  match mapLookup tasks task_id with
  | none => .error (.TaskNotFound task_id)
  | some task =>
    match task.status with
    | .Pending | .Approved | .Paused =>
      if task.approval_flags.pre_approval_required &&
          (!task.approval_flags.pre_approval_granted && !task.approval_flags.auto_approved) then
        .ok false
      else if task.automation.auto_run_enabled &&
          decide (task.automation.execution_count > 0) then
        .ok true
      else
        .ok (task.approval_flags.pre_approval_granted || task.approval_flags.auto_approved)
    | .InProgress => .error (.TaskInProgress task_id)
    | st => .error (.InvalidStateTransition (statusDebug st) "InProgress")

/-- `TaskManager::start_task`; `now` stands for the `Utc::now()` call. -/
def start_task (tasks : TaskMap) (task_id : String) (now : Nat) :
    Except TaskManagerError TaskMap :=
  match can_start_task tasks task_id with
  | .error e => .error e
  | .ok can =>
    if can then
      match mapLookup tasks task_id with
      | none => .error (.TaskNotFound task_id)
      | some _ =>
        .ok (mapModify tasks task_id
          (fun task => { task with status := .InProgress, updated_at := now }))
    else
      .error (.ApprovalRequired task_id)

/-- `TaskManager::approve_task`; an unrequired gate returns `Ok(())` before
touching the task, so the whole map is returned unchanged. -/
def approve_task (tasks : TaskMap) (task_id : String) (approval_type : ApprovalType)
    (now : Nat) : Except TaskManagerError TaskMap :=
  match mapLookup tasks task_id with
  | none => .error (.TaskNotFound task_id)
  | some task =>
    match approval_type with
    | .PreApproval =>
      if !task.approval_flags.pre_approval_required then
        .ok tasks
      else
        .ok (mapModify tasks task_id (fun task =>
          let task := { task with approval_flags :=
            { task.approval_flags with
              pre_approval_granted := true, pre_approval_timestamp := some now } }
          let task :=
            if task.status = .Pending then { task with status := .Approved } else task
          { task with updated_at := now }))
    | .PostApproval =>
      if !task.approval_flags.post_approval_required then
        .ok tasks
      else
        .ok (mapModify tasks task_id (fun task =>
          { task with
            approval_flags := { task.approval_flags with
              post_approval_granted := true, post_approval_timestamp := some now }
            updated_at := now }))

/-- `MemoryManager::record_workflow_history`
(`src/engine/src/memory_manager.rs`): append an entry to the project's
history, creating a default project record when none exists. -/
def record_workflow_history (projects : ProjectMap) (project_id task_id : String)
    (success : Bool) (duration_ms : Nat) (now : Nat) : ProjectMap :=
  match mapLookup projects project_id with
  | some proj =>
    mapInsert projects project_id
      { proj with
        workflow_history := proj.workflow_history ++
          [{ task_id := task_id, executed_at := now
             success := success, duration_ms := duration_ms }]
        updated_at := now }
  | none =>
    mapInsert projects project_id
      { project_id := project_id
        project_name := "Default Project"
        recurring_rules := []
        workflow_history :=
          [{ task_id := task_id, executed_at := now
             success := success, duration_ms := duration_ms }]
        automation_preferences := AutomationPreferences.default
        created_at := now
        updated_at := now }

/-- `TaskManager::complete_task`: set `Completed`, bump the `u32`
`execution_count` (wrapping at `2 ^ 32`), record one workflow-history
entry against the `"default"` project. -/
def complete_task (tasks : TaskMap) (projects : ProjectMap) (task_id : String)
    (now : Nat) : Except TaskManagerError (TaskMap × ProjectMap) :=
  match mapLookup tasks task_id with
  | none => .error (.TaskNotFound task_id)
  | some task =>
    let task := { task with
      status := .Completed
      updated_at := now
      automation := { task.automation with
        execution_count := (task.automation.execution_count + 1) % 4294967296 } }
    .ok (mapModify tasks task_id (fun _ => task),
         record_workflow_history projects "default" task.task_id true 0 now)

/-! ## Scheduler (`src/engine/src/scheduler.rs`) -/

/-- Splitting a character list at every occurrence of `sep`, keeping empty
pieces — the behaviour of Rust's `str::split(':')` (the accumulator holds
the current piece reversed). -/
def splitChar (sep : Char) : List Char → List Char → List (List Char)
  | [], acc => [acc.reverse]
  | c :: rest, acc =>
    if c = sep then acc.reverse :: splitChar sep rest []
    else splitChar sep rest (c :: acc)

/-- Model of Rust's `str::parse::<u32>` as far as the scheduler needs it:
an optional leading `+`, then one or more ASCII digits. A value at or
beyond `2 ^ 32` overflows to `Err` in Rust; returning `none` for it keeps
`parse_time` pointwise identical, since such a value would be rejected by
the `hour < 24 && minute < 60` guard anyway. -/
def parseU32 (s : List Char) : Option Nat :=
  let cs := match s with
    | '+' :: rest => rest
    | cs => cs
  if cs ≠ [] ∧ cs.all Char.isDigit then
    let v := cs.foldl (fun acc c => acc * 10 + (c.toNat - 48)) 0
    if v < 4294967296 then some v else none
  else none

/-- `parse_time` (free function in `scheduler.rs`): split on `:`, require
exactly two pieces, parse both as `u32`, accept when hour < 24 and
minute < 60. -/
def parse_time (time_str : String) : Option (Nat × Nat) :=
  match splitChar ':' time_str.data [] with
  | [p0, p1] =>
    match parseU32 p0, parseU32 p1 with
    | some hour, some minute =>
      if hour < 24 ∧ minute < 60 then some (hour, minute) else none
    | _, _ => none
  | _ => none

/-- `DateTime::weekday().num_days_from_monday()`: the Unix epoch
1970-01-01 was a Thursday, three days after Monday. -/
def weekday (t : Nat) : Nat := (t / 86400 + 3) % 7

/-- `date_naive().and_hms_opt(hour, minute, 0).and_utc()`: pin a timestamp
to the given time of day; total because `parse_time` guarantees
`hour < 24` and `minute < 60`. -/
def pin_time (t hour minute : Nat) : Nat :=
  (t / 86400) * 86400 + hour * 3600 + minute * 60

/-- `Scheduler::calculate_next_run`. The weekly wrap adds
`7 - current_weekday + first_day` computed in `u8`, hence the `% 256`. -/
def calculate_next_run (current : Nat) (recurrence : Recurrence) : Option Nat :=
  match recurrence.frequency with
  | .Daily =>
    let next := current + 86400
    let next := match recurrence.time with
      | some time_str =>
        match parse_time time_str with
        | some (hour, minute) => pin_time next hour minute
        | none => next
      | none => next
    some next
  | .Weekly =>
    let next := current + 7 * 86400
    let next := match recurrence.days_of_week with
      | some days =>
        let current_weekday := weekday current
        match days.find? (fun d => decide (d > current_weekday)) with
        | some next_day => current + (next_day - current_weekday) * 86400
        | none =>
          match days.head? with
          | some first_day => current + ((7 - current_weekday + first_day) % 256) * 86400
          | none => next
      | none => next
    let next := match recurrence.time with
      | some time_str =>
        match parse_time time_str with
        | some (hour, minute) => pin_time next hour minute
        | none => next
      | none => next
    some next
  | .Monthly => some (current + 30 * 86400)
  | .Custom =>
    match recurrence.interval with
    | some interval => some (current + interval * 86400)
    | none => none

structure ScheduledTaskInfo where
  task_id : String
  next_run : Nat
  recurrence : Option Recurrence

/-- The scheduler's registry together with the task manager's map it
drives; `check_and_trigger_tasks` reads and mutates both. -/
structure SchedulerState where
  tasks : TaskMap
  scheduled : List (String × ScheduledTaskInfo)

/-- The body of `check_and_trigger_tasks` for one collected due entry:
unknown task ids are skipped entirely; otherwise start (when auto-run is
enabled) and recompute or drop the schedule entry. -/
def trigger_task (now : Nat) (st : SchedulerState)
    (trig : String × Nat × Option Recurrence) : SchedulerState :=
  match mapLookup st.tasks trig.1 with
  | none => st
  | some task =>
    { tasks :=
        if task.automation.auto_run_enabled then
          match start_task st.tasks trig.1 now with
          | .ok m => m
          | .error _ => st.tasks
        else
          st.tasks
      scheduled :=
        match trig.2.2 with
        | some recur =>
          match calculate_next_run now recur with
          | some next_run =>
            mapModify st.scheduled trig.1 (fun info => { info with next_run := next_run })
          | none => mapRemove st.scheduled trig.1
        | none => mapRemove st.scheduled trig.1 }

/-- `Scheduler::check_and_trigger_tasks`: snapshot the due entries
(`tasks_to_trigger`), then process each in turn. -/
def check_and_trigger_tasks (now : Nat) (st : SchedulerState) : SchedulerState :=
  ((st.scheduled.filter (fun e => decide (e.2.next_run ≤ now))).map
    (fun e => (e.2.task_id, e.2.next_run, e.2.recurrence))).foldl (trigger_task now) st

/-! ## Step executor (`src/engine/src/step_executor.rs`)

One iteration of the retry loop first runs `execute_step_internal`
(actuator dispatch — external collaborator), then `compute_dom_hash`
(snapshot fetch + SHA-256 — also external). The environment `env` gives,
per retry counter, the combined outcome of those two external calls:
`actuatorErr` when `execute_step_internal` returned `Err` (retried while
budget remains), `snapshotErr` when the internal call succeeded but the
snapshot fetch failed (the `?` aborts the whole call, bypassing the retry
arm), and `ok result dom_hash` when both succeeded. `clock` gives the
`Utc::now()` reading of each attempt. -/

inductive AttemptOutcome where
  | actuatorErr (msg : String)
  | snapshotErr (msg : String)
  | ok (result : Json) (dom_hash : String)

inductive StepError where
  | actuatorError (msg : String)
  | snapshotError (msg : String)
  | verificationFailed (max_retries : Nat)
deriving DecidableEq

/-- The `ExecutionLogEntry` built for a completed attempt. -/
def mkLogEntry (step : Step) (clock : Nat → Nat) (retry_count : Nat) (result : Json)
    (dom_hash : String) : ExecutionLogEntry :=
  { step_id := step.step_id
    timestamp := clock retry_count
    action := actionDebug step.action
    dom_snapshot_hash := dom_hash
    extracted_data := some result
    verification_result := some (verify_step step (some result) dom_hash)
    retry_count := retry_count }

/-- The retry loop of `StepExecutor::execute_step`, entered with the given
retry counter. Returns the log entries this call appends (in order) and
the final outcome. -/
def execute_step_from (step : Step) (env : Nat → AttemptOutcome) (clock : Nat → Nat)
    (retry_count : Nat) : List ExecutionLogEntry × Except StepError Json :=
  match env retry_count with
  | .actuatorErr msg =>
    if h : retry_count < step.retry_config.max_retries then
      execute_step_from step env clock (retry_count + 1)
    else
      ([], .error (.actuatorError msg))
  | .snapshotErr msg => ([], .error (.snapshotError msg))
  | .ok result dom_hash =>
    let verification := verify_step step (some result) dom_hash
    let entry := mkLogEntry step clock retry_count result dom_hash
    if verification.passed then
      ([entry], .ok result)
    else if h : retry_count < step.retry_config.max_retries then
      let rest := execute_step_from step env clock (retry_count + 1)
      (entry :: rest.1, rest.2)
    else
      ([entry], .error (.verificationFailed step.retry_config.max_retries))
termination_by step.retry_config.max_retries + 1 - retry_count
decreasing_by
  all_goals omega

/-- `StepExecutor::execute_step` starts the loop at retry counter 0. -/
def execute_step (step : Step) (env : Nat → AttemptOutcome) (clock : Nat → Nat) :
    List ExecutionLogEntry × Except StepError Json :=
  execute_step_from step env clock 0

/-- Control-flow predicate of the retry loop: attempt `i` falls through to
attempt `i + 1` exactly when it was an actuator error with budget left, or
a completed attempt that failed verification with budget left. -/
def attempt_continues (step : Step) (env : Nat → AttemptOutcome) (i : Nat) : Bool :=
  match env i with
  | .actuatorErr _ => decide (i < step.retry_config.max_retries)
  | .snapshotErr _ => false
  | .ok result dom_hash =>
    !(verify_step step (some result) dom_hash).passed &&
      decide (i < step.retry_config.max_retries)

/-! ## Concrete fixtures used by witnesses and counterexamples -/

def demoWorkflow : Workflow := { workflow_id := "wf", steps := [] }

def baseTask : Task :=
  { task_id := "t"
    task_name := "demo"
    task_source := .UserManual
    status := .Pending
    approval_flags := ApprovalFlags.default
    scheduling := none
    automation := Automation.default
    workflow := demoWorkflow
    current_step := none
    page_state := none
    execution_log := []
    created_at := 0
    updated_at := 0 }

/-- Pending task with an ungranted required pre-approval gate but with the
repeat-exemption condition satisfied (`auto_run_enabled`, one past run). -/
def gatedRepeatTask : Task :=
  { baseTask with automation :=
      { is_repetitive := true, auto_run_enabled := true, execution_count := 1 } }

/-- Pending task whose pre-approval gate is not required and not granted,
with default automation (no repeat exemption). -/
def ungatedTask : Task :=
  { baseTask with approval_flags :=
      { ApprovalFlags.default with pre_approval_required := false } }

/-- Pending task whose required pre-approval gate has been granted. -/
def grantedTask : Task :=
  { baseTask with approval_flags :=
      { ApprovalFlags.default with pre_approval_granted := true } }

/-- Startability condition actually implemented by `can_start_task` for a
task in a startable status (proved below): granted, or auto-approved, or
a repeat-exempt task whose gate is not required at all. This is the cor-
rected form of the spec's `!required || granted || auto_approved` gate. -/
def startable (t : Task) : Bool :=
  t.approval_flags.pre_approval_granted || t.approval_flags.auto_approved ||
    (t.automation.auto_run_enabled && decide (t.automation.execution_count > 0) &&
      !t.approval_flags.pre_approval_required)

/-- Step whose single sanity check can never pass when the actuator
reports `null` data; retry budget of 2. -/
def sanityStep : Step :=
  { step_id := "s1"
    action := .Extract
    target := "#x"
    parameters := none
    expected_schema := none
    verification := [.SanityCheck]
    retry_config := { max_retries := 2, retry_delay_ms := 5 }
    requires_approval := false }

/-- Same step with a zero retry budget. -/
def zeroRetryStep : Step :=
  { sanityStep with retry_config := { max_retries := 0, retry_delay_ms := 5 } }

/-- Environment in which every actuator call succeeds but extracts `null`
(so the sanity check fails every attempt). -/
def nullEnv : Nat → AttemptOutcome := fun _ => .ok .null "hash0"

/-- Environment in which every actuator call fails. -/
def boomEnv : Nat → AttemptOutcome := fun _ => .actuatorErr "boom"

/-- Attempt clock used by the step-executor fixtures. -/
def tickClock : Nat → Nat := fun i => 100 + i

/-- Scheduler state with one due entry whose task id is unknown to the
task manager. -/
def orphanSchedState : SchedulerState :=
  { tasks := []
    scheduled := [("ghost", { task_id := "ghost", next_run := 50, recurrence := none })] }

/-- Weekly Tuesday-and-Thursday recurrence fixture (`days_of_week = [1,3]`). -/
def weeklyRec13 : Recurrence :=
  { frequency := .Weekly, interval := none, days_of_week := some [1, 3], time := none }

/-- Weekly recurrence fixture with the weekday list out of order. -/
def weeklyRec31 : Recurrence :=
  { frequency := .Weekly, interval := none, days_of_week := some [3, 1], time := none }

/-- Daily recurrence fixture pinned to 09:30. -/
def dailyRec0930 : Recurrence :=
  { frequency := .Daily, interval := none, days_of_week := none, time := some "09:30" }

/-- Step fixture declaring a schema check against `{"a":null,"b":null}`. -/
def schemaStepAB : Step :=
  { sanityStep with
    verification := [.Schema]
    expected_schema := some (.obj [("a", .null), ("b", .null)]) }

/-! ## Lemmas about the association-list maps -/

theorem mapLookup_mapInsert_self {α : Type} (m : List (String × α)) (k : String) (v : α) :
    mapLookup (mapInsert m k v) k = some v := by
  induction m with
  | nil => simp [mapInsert, mapLookup]
  | cons hd tl ih =>
    obtain ⟨k', v'⟩ := hd
    by_cases h : k' = k <;> simp [mapInsert, mapLookup, h, ih]

theorem mapLookup_mapInsert_ne {α : Type} (m : List (String × α)) (k k' : String) (v : α)
    (h : k ≠ k') : mapLookup (mapInsert m k v) k' = mapLookup m k' := by
  induction m with
  | nil => simp [mapInsert, mapLookup, h]
  | cons hd tl ih =>
    obtain ⟨k'', v''⟩ := hd
    by_cases h2 : k'' = k
    · subst h2
      simp [mapInsert, mapLookup, h]
    · simp [mapInsert, mapLookup, h2, ih]

theorem mapLookup_mapModify_self {α : Type} (m : List (String × α)) (k : String)
    (f : α → α) (v : α) (h : mapLookup m k = some v) :
    mapLookup (mapModify m k f) k = some (f v) := by
  induction m with
  | nil => simp [mapLookup] at h
  | cons hd tl ih =>
    obtain ⟨k', v'⟩ := hd
    by_cases h2 : k' = k
    · simp [mapLookup, h2] at h
      simp [mapModify, mapLookup, h2, h]
    · simp [mapLookup, h2] at h
      simp [mapModify, mapLookup, h2, ih h]

theorem mapLookup_mapModify_ne {α : Type} (m : List (String × α)) (k k' : String)
    (f : α → α) (h : k ≠ k') : mapLookup (mapModify m k f) k' = mapLookup m k' := by
  induction m with
  | nil => simp [mapModify, mapLookup]
  | cons hd tl ih =>
    obtain ⟨k'', v''⟩ := hd
    by_cases h2 : k'' = k <;> simp [mapModify, mapLookup, h2, ih]
    · subst h2
      simp [h]

theorem mapLookup_mapRemove_ne {α : Type} (m : List (String × α)) (k k' : String)
    (h : k ≠ k') : mapLookup (mapRemove m k) k' = mapLookup m k' := by
  induction m with
  | nil => simp [mapRemove, mapLookup]
  | cons hd tl ih =>
    obtain ⟨k'', v''⟩ := hd
    by_cases h2 : k'' = k
    · subst h2
      simpa [mapRemove, mapLookup, h, Ne.symm h] using ih
    · by_cases h3 : k'' = k'
      · subst h3
        simp [mapRemove, mapLookup, h2]
      · simpa [mapRemove, mapLookup, h2, h3] using ih

/-! ## Unfolding lemmas for the retry loop -/

theorem execute_step_from_actuatorErr_retry (step : Step) (env : Nat → AttemptOutcome)
    (clock : Nat → Nat) (rc : Nat) (msg : String) (henv : env rc = .actuatorErr msg)
    (hlt : rc < step.retry_config.max_retries) :
    execute_step_from step env clock rc = execute_step_from step env clock (rc + 1) := by
  rw [execute_step_from, henv]
  simp [hlt]

theorem execute_step_from_actuatorErr_last (step : Step) (env : Nat → AttemptOutcome)
    (clock : Nat → Nat) (rc : Nat) (msg : String) (henv : env rc = .actuatorErr msg)
    (hge : ¬ rc < step.retry_config.max_retries) :
    execute_step_from step env clock rc = ([], .error (.actuatorError msg)) := by
  rw [execute_step_from, henv]
  simp [hge]

theorem execute_step_from_snapshotErr (step : Step) (env : Nat → AttemptOutcome)
    (clock : Nat → Nat) (rc : Nat) (msg : String) (henv : env rc = .snapshotErr msg) :
    execute_step_from step env clock rc = ([], .error (.snapshotError msg)) := by
  rw [execute_step_from, henv]

theorem execute_step_from_ok_pass (step : Step) (env : Nat → AttemptOutcome)
    (clock : Nat → Nat) (rc : Nat) (result : Json) (dom_hash : String)
    (henv : env rc = .ok result dom_hash)
    (hv : (verify_step step (some result) dom_hash).passed = true) :
    execute_step_from step env clock rc =
      ([mkLogEntry step clock rc result dom_hash], .ok result) := by
  rw [execute_step_from, henv]
  simp [hv]

theorem execute_step_from_ok_fail_retry (step : Step) (env : Nat → AttemptOutcome)
    (clock : Nat → Nat) (rc : Nat) (result : Json) (dom_hash : String)
    (henv : env rc = .ok result dom_hash)
    (hv : (verify_step step (some result) dom_hash).passed = false)
    (hlt : rc < step.retry_config.max_retries) :
    execute_step_from step env clock rc =
      (mkLogEntry step clock rc result dom_hash ::
        (execute_step_from step env clock (rc + 1)).1,
       (execute_step_from step env clock (rc + 1)).2) := by
  rw [execute_step_from, henv]
  simp [hv, hlt]

theorem execute_step_from_ok_fail_last (step : Step) (env : Nat → AttemptOutcome)
    (clock : Nat → Nat) (rc : Nat) (result : Json) (dom_hash : String)
    (henv : env rc = .ok result dom_hash)
    (hv : (verify_step step (some result) dom_hash).passed = false)
    (hge : ¬ rc < step.retry_config.max_retries) :
    execute_step_from step env clock rc =
      ([mkLogEntry step clock rc result dom_hash],
       .error (.verificationFailed step.retry_config.max_retries)) := by
  rw [execute_step_from, henv]
  simp [hv, hge]

/-! ## Claim C1 -/

/-- Claim C1, counterexample: a Pending task with a required, ungranted,
not auto-approved pre-approval gate and the repeat-exemption condition
satisfied (`auto_run_enabled` and `execution_count = 1`) still gets
`Ok(false)` from `can_start_task`, where the claim predicts `Ok(true)`:
the gate's early `return Ok(false)` precedes the repeat-exemption check. -/
theorem claim1_repeat_exemption_counterexample :
    gatedRepeatTask.status = .Pending ∧
    gatedRepeatTask.approval_flags.pre_approval_required = true ∧
    gatedRepeatTask.approval_flags.pre_approval_granted = false ∧
    gatedRepeatTask.approval_flags.auto_approved = false ∧
    gatedRepeatTask.automation.auto_run_enabled = true ∧
    gatedRepeatTask.automation.execution_count > 0 ∧
    can_start_task [("t", gatedRepeatTask)] "t" = .ok false ∧
    can_start_task [("t", gatedRepeatTask)] "t" ≠ .ok true := by
  refine ⟨rfl, rfl, rfl, rfl, rfl, Nat.one_pos, rfl, ?_⟩
  intro h
  have h2 : can_start_task [("t", gatedRepeatTask)] "t" = .ok false := rfl
  rw [h2] at h
  exact Except.noConfusion h (fun hb => Bool.noConfusion hb)

/-- Claim C1 as amended: for every task in a startable status whose
approval flags have `pre_approval_required = true`,
`pre_approval_granted = false` and `auto_approved = false`,
`can_start_task` returns `Ok(false)` unconditionally — the
repeat-exemption condition does not override the pre-approval gate. -/
theorem claim1_gate_blocks_unconditionally (tasks : TaskMap) (task_id : String)
    (t : Task) (h : mapLookup tasks task_id = some t)
    (hs : t.status = .Pending ∨ t.status = .Approved ∨ t.status = .Paused)
    (hreq : t.approval_flags.pre_approval_required = true)
    (hg : t.approval_flags.pre_approval_granted = false)
    (ha : t.approval_flags.auto_approved = false) :
    can_start_task tasks task_id = .ok false := by
  rcases hs with hs | hs | hs <;>
    simp [can_start_task, h, hs, hreq, hg, ha]

/-- Witness for the amended C1 theorem at the concrete repeat-exempt task. -/
theorem claim1_gate_blocks_witness :
    can_start_task [("t", gatedRepeatTask)] "t" = .ok false :=
  claim1_gate_blocks_unconditionally [("t", gatedRepeatTask)] "t" gatedRepeatTask
    rfl (Or.inl rfl) rfl rfl rfl

/-! ## Claim C2 -/

/-- Claim C2, counterexample: a Pending task with
`pre_approval_required = false`, `pre_approval_granted = false` and
`auto_approved = false` satisfies the spec's gate invariant
(`!required || granted || auto_approved`), yet `can_start_task` returns
`Ok(false)` (the final line of `can_start_task` ignores `!required`) and
`start_task` fails with `ApprovalRequired`. -/
theorem claim2_unrequired_gate_counterexample :
    ungatedTask.status = .Pending ∧
    ungatedTask.approval_flags.pre_approval_required = false ∧
    ungatedTask.approval_flags.pre_approval_granted = false ∧
    ungatedTask.approval_flags.auto_approved = false ∧
    can_start_task [("t", ungatedTask)] "t" = .ok false ∧
    start_task [("t", ungatedTask)] "t" 0 = .error (.ApprovalRequired "t") :=
  ⟨rfl, rfl, rfl, rfl, rfl, rfl⟩

/-- Claim C2 as amended: for a task in a startable status,
`can_start_task` returns `Ok(startable t)` where `startable` is
granted-or-auto-approved-or-(repeat-exempt-and-not-required) — not the
spec's `!required || granted || auto_approved` gate; whenever that
condition is false (in particular for a task with no required gate, no
grant and no repeat exemption), `start_task` fails with
`ApprovalRequired`. -/
theorem claim2_can_start_characterization (tasks : TaskMap) (task_id : String)
    (t : Task) (now : Nat) (h : mapLookup tasks task_id = some t)
    (hs : t.status = .Pending ∨ t.status = .Approved ∨ t.status = .Paused) :
    can_start_task tasks task_id = .ok (startable t) ∧
    (startable t = false →
      start_task tasks task_id now = .error (.ApprovalRequired task_id)) := by
  have hcs : can_start_task tasks task_id = .ok (startable t) := by
    rcases hs with hs | hs | hs <;>
      simp only [can_start_task, h, hs] <;>
      cases hA : t.approval_flags.pre_approval_required <;>
      cases hB : t.approval_flags.pre_approval_granted <;>
      cases hC : t.approval_flags.auto_approved <;>
      cases hD : t.automation.auto_run_enabled <;>
      by_cases hE : t.automation.execution_count > 0 <;>
      simp [startable, hA, hB, hC, hD, hE]
  refine ⟨hcs, fun hsf => ?_⟩
  rw [start_task, hcs, hsf]
  simp

/-- Witness for the amended C2 theorem: a granted required gate makes the
task startable. -/
theorem claim2_can_start_witness :
    can_start_task [("t", grantedTask)] "t" = .ok true ∧
    start_task [("t", ungatedTask)] "t" 3 = .error (.ApprovalRequired "t") := by
  constructor
  · exact (claim2_can_start_characterization [("t", grantedTask)] "t" grantedTask 3
      rfl (Or.inl rfl)).1
  · exact (claim2_can_start_characterization [("t", ungatedTask)] "t" ungatedTask 3
      rfl (Or.inl rfl)).2 rfl

/-! ## Claim C5 -/

/-- Claim C5: approving a gate whose `required` flag is false succeeds and
returns the task map unchanged — no field of any task is touched. -/
theorem claim5_unrequired_gate_noop (tasks : TaskMap) (task_id : String) (t : Task)
    (approval_type : ApprovalType) (now : Nat)
    (h : mapLookup tasks task_id = some t)
    (hreq : (match approval_type with
             | .PreApproval => t.approval_flags.pre_approval_required
             | .PostApproval => t.approval_flags.post_approval_required) = false) :
    approve_task tasks task_id approval_type now = .ok tasks := by
  cases approval_type <;> simp_all [approve_task, h]

/-- Witness for C5 at a concrete task with an unrequired pre gate. -/
theorem claim5_unrequired_gate_witness :
    approve_task [("t", ungatedTask)] "t" .PreApproval 7 = .ok [("t", ungatedTask)] :=
  claim5_unrequired_gate_noop [("t", ungatedTask)] "t" ungatedTask .PreApproval 7 rfl rfl

/-! ## Claim C6 -/

/-- Claim C6: `complete_task` on an existing task (whose `u32` execution
counter is not at its maximum) sets the status to `Completed`, increments
`automation.execution_count` by exactly 1, and appends exactly one
workflow-history entry (task id, timestamp, success, duration 0) to the
`"default"` project, creating that project record when absent. -/
theorem claim6_complete_task_effects (tasks : TaskMap) (projects : ProjectMap)
    (task_id : String) (now : Nat) (t : Task)
    (h : mapLookup tasks task_id = some t)
    (hc : t.automation.execution_count + 1 < 4294967296) :
    ∃ tasks' projects',
      complete_task tasks projects task_id now = .ok (tasks', projects') ∧
      (∃ t', mapLookup tasks' task_id = some t' ∧
        t'.status = .Completed ∧
        t'.automation.execution_count = t.automation.execution_count + 1) ∧
      (mapLookup projects' "default").map ProjectMemory.workflow_history =
        some ((((mapLookup projects "default").map ProjectMemory.workflow_history).getD [])
          ++ [{ task_id := t.task_id, executed_at := now, success := true, duration_ms := 0 }]) := by
  have hmod : (t.automation.execution_count + 1) % 4294967296 =
      t.automation.execution_count + 1 := Nat.mod_eq_of_lt hc
  refine ⟨mapModify tasks task_id (fun _ =>
      { t with
        status := .Completed
        updated_at := now
        automation := { t.automation with
          execution_count := (t.automation.execution_count + 1) % 4294967296 } }),
    record_workflow_history projects "default" t.task_id true 0 now,
    ?_, ?_, ?_⟩
  · simp [complete_task, h]
  · refine ⟨_, mapLookup_mapModify_self tasks task_id _ t h, rfl, ?_⟩
    simpa using hmod
  · unfold record_workflow_history
    cases hl : mapLookup projects "default" with
    | none => simp [hl, mapLookup_mapInsert_self]
    | some proj => simp [hl, mapLookup_mapInsert_self]

/-- Witness for C6: completing the base fixture task with an empty
project map creates the default project with one history entry. -/
theorem claim6_complete_task_witness :
    mapLookup [("t", baseTask)] "t" = some baseTask ∧
    baseTask.automation.execution_count + 1 < 4294967296 ∧
    (∃ tasks' projects',
      complete_task [("t", baseTask)] [] "t" 9 = .ok (tasks', projects') ∧
      (∃ t', mapLookup tasks' "t" = some t' ∧
        t'.status = .Completed ∧
        t'.automation.execution_count = baseTask.automation.execution_count + 1) ∧
      (mapLookup projects' "default").map ProjectMemory.workflow_history =
        some ((((mapLookup ([] : ProjectMap) "default").map ProjectMemory.workflow_history).getD [])
          ++ [{ task_id := baseTask.task_id, executed_at := 9, success := true, duration_ms := 0 }])) :=
  ⟨rfl, by decide,
    claim6_complete_task_effects [("t", baseTask)] [] "t" 9 baseTask rfl (by decide)⟩

/-! ## Claim C7 -/

/-- Claim C7, counterexample to the "smallest listed weekday" wording: at
a Monday instant (timestamp 345600 = 1970-01-05, weekday 0) with
`days_of_week = [3, 1]`, the code picks 3 — the first listed weekday
greater than 0 in list order — and returns +3 days, not the smallest such
weekday 1 (+1 day). -/
theorem claim7_unsorted_days_counterexample :
    weekday 345600 = 0 ∧
    calculate_next_run 345600 weeklyRec31 = some (345600 + 3 * 86400) ∧
    calculate_next_run 345600 weeklyRec31 ≠ some (345600 + 1 * 86400) := by
  refine ⟨rfl, rfl, ?_⟩
  intro h
  have h2 : calculate_next_run 345600 weeklyRec31 = some 604800 := rfl
  rw [h2] at h
  simp at h

/-- Claim C7 as amended: with a weekday list and no time-of-day pin, the
weekly recomputation selects the first listed weekday (in list order)
strictly greater than the current weekday; when none is greater it wraps
to the first listed weekday of the next week; in particular, for
`days_of_week = [1, 3]` at a Tuesday instant it returns +2 days (the same
week's Thursday), not +7. -/
theorem claim7_weekly_first_listed (current : Nat) (days : List Nat)
    (recurrence : Recurrence) (hf : recurrence.frequency = .Weekly)
    (hd : recurrence.days_of_week = some days) (ht : recurrence.time = none) :
    (∀ next_day, days.find? (fun d => decide (d > weekday current)) = some next_day →
      calculate_next_run current recurrence =
        some (current + (next_day - weekday current) * 86400)) ∧
    (∀ first_day, days.find? (fun d => decide (d > weekday current)) = none →
      days.head? = some first_day →
      calculate_next_run current recurrence =
        some (current + ((7 - weekday current + first_day) % 256) * 86400)) ∧
    (weekday current = 1 → days = [1, 3] →
      calculate_next_run current recurrence = some (current + 2 * 86400)) := by
  refine ⟨?_, ?_, ?_⟩
  · intro next_day hfind
    simp [calculate_next_run, hf, hd, ht, hfind]
  · intro first_day hfind hhead
    simp [calculate_next_run, hf, hd, ht, hfind, hhead]
  · intro hw hdays
    subst hdays
    simp [calculate_next_run, hf, hd, ht, hw, List.find?]

/-- Witness for the amended C7 theorem: timestamp 432000 (1970-01-06) is a
Tuesday; the next run for `[1, 3]` is +2 days. -/
theorem claim7_weekly_witness :
    weekday 432000 = 1 ∧
    calculate_next_run 432000 weeklyRec13 = some (432000 + 2 * 86400) :=
  ⟨rfl, (claim7_weekly_first_listed 432000 [1, 3] weeklyRec13 rfl rfl rfl).2.2 rfl rfl⟩

/-! ## Claim C8 -/

/-- Claim C8: for a daily recurrence at a time in day D, the recomputed
next run is in day D+1 — pinned to the parsed `HH:MM` time of day when
the time string parses (hour < 24, minute < 60), and the un-pinned
`current + 1 day` timestamp when the string is malformed; `"09:30"`
parses to 09:30. -/
theorem claim8_daily_next_day (current hour minute : Nat) (recurrence : Recurrence)
    (hf : recurrence.frequency = .Daily) :
    (∀ time_str, recurrence.time = some time_str →
      parse_time time_str = some (hour, minute) →
      calculate_next_run current recurrence =
        some ((current / 86400 + 1) * 86400 + hour * 3600 + minute * 60)) ∧
    (∀ time_str, recurrence.time = some time_str →
      parse_time time_str = none →
      calculate_next_run current recurrence = some (current + 86400)) ∧
    parse_time "09:30" = some (9, 30) := by
  refine ⟨?_, ?_, by decide⟩
  · intro time_str hts hparse
    have hday : (current + 86400) / 86400 = current / 86400 + 1 :=
      Nat.add_div_right current (by norm_num)
    simp [calculate_next_run, hf, hts, hparse, pin_time, hday]
  · intro time_str hts hparse
    simp [calculate_next_run, hf, hts, hparse]

/-- Witness for C8 at noon of day 0 with the 09:30 pin: next run is day 1
at 09:30 (timestamp 120600). -/
theorem claim8_daily_witness :
    calculate_next_run 43200 dailyRec0930 = some 120600 := by
  have h := (claim8_daily_next_day 43200 9 30 dailyRec0930 rfl).1 "09:30" rfl
    (claim8_daily_next_day 43200 9 30 dailyRec0930 rfl).2.2
  simpa using h

/-! ## Claim C9 -/

/-- Claim C9: the schema check fails for object data `{"a":1}` against
schema `{"a":null,"b":null}` and passes against `{"a":null}`; with no
declared schema it passes trivially; with a declared schema but no
extracted data it fails; and `matches_schema` checks key presence for
object schemas, length equality for array schemas, and same JSON kind for
scalar schemas. -/
theorem claim9_schema_check :
    (∀ step : Step, step.expected_schema = some (.obj [("a", .null), ("b", .null)]) →
      (verify_schema step (some (.obj [("a", .num 1)]))).passed = false) ∧
    (∀ step : Step, step.expected_schema = some (.obj [("a", .null)]) →
      (verify_schema step (some (.obj [("a", .num 1)]))).passed = true) ∧
    (∀ (step : Step) (d : Option Json), step.expected_schema = none →
      (verify_schema step d).passed = true) ∧
    (∀ (step : Step) (s : Json), step.expected_schema = some s →
      (verify_schema step none).passed = false) ∧
    (∀ data_obj schema_obj, matches_schema (.obj data_obj) (.obj schema_obj) = true ↔
      ∀ kv ∈ schema_obj, (mapLookup data_obj kv.1).isSome = true) ∧
    (∀ data_arr schema_arr, matches_schema (.arr data_arr) (.arr schema_arr) = true ↔
      data_arr.length = schema_arr.length) ∧
    (∀ d s : Json, s.isScalar = true → matches_schema d s = sameJsonKind d s) := by
  refine ⟨?_, ?_, ?_, ?_, ?_, ?_, ?_⟩
  · intro step h
    simp [verify_schema, h]
    decide
  · intro step h
    simp [verify_schema, h]
    decide
  · intro step d h
    simp [verify_schema, h]
  · intro step s h
    simp [verify_schema, h]
  · intro data_obj schema_obj
    simp [matches_schema]
  · intro data_arr schema_arr
    simp [matches_schema]
  · intro d s hs
    cases s <;> cases d <;> simp_all [matches_schema, Json.isScalar, sameJsonKind]

/-- Witness for C9 at the concrete fixture step: `{"a":1}` fails against
the two-key schema. -/
theorem claim9_schema_check_witness :
    (verify_schema schemaStepAB (some (.obj [("a", .num 1)]))).passed = false :=
  claim9_schema_check.1 schemaStepAB rfl

/-! ## Claim C4 -/

/-- Claim C4: with `max_retries = 2`, actuator calls that always succeed
and verification that always fails, `execute_step` appends exactly three
log entries carrying retry counters 0, 1, 2 and ends with the terminal
`VerificationFailed` error. -/
theorem claim4_retry_exhaustion (step : Step) (env : Nat → AttemptOutcome)
    (clock : Nat → Nat) (hmax : step.retry_config.max_retries = 2)
    (hfail : ∀ i, i ≤ 2 → ∃ r dh, env i = .ok r dh ∧
      (verify_step step (some r) dh).passed = false) :
    ((execute_step step env clock).1.map (fun e => e.retry_count) = [0, 1, 2]) ∧
    (execute_step step env clock).2 = .error (.verificationFailed 2) := by
  obtain ⟨r0, d0, he0, hv0⟩ := hfail 0 (by norm_num)
  obtain ⟨r1, d1, he1, hv1⟩ := hfail 1 (by norm_num)
  obtain ⟨r2, d2, he2, hv2⟩ := hfail 2 (by norm_num)
  have h0 := execute_step_from_ok_fail_retry step env clock 0 r0 d0 he0 hv0 (by omega)
  have h1 := execute_step_from_ok_fail_retry step env clock 1 r1 d1 he1 hv1 (by omega)
  have h2 := execute_step_from_ok_fail_last step env clock 2 r2 d2 he2 hv2 (by omega)
  norm_num at h0 h1
  unfold execute_step
  rw [h0, h1, h2]
  constructor <;> simp [mkLogEntry, hmax]

/-- Witness for C4: the sanity-check step fixture with null extractions
exhausts its budget of 2 and logs counters 0, 1, 2. -/
theorem claim4_retry_exhaustion_witness :
    sanityStep.retry_config.max_retries = 2 ∧
    ((execute_step sanityStep nullEnv tickClock).1.map (fun e => e.retry_count) = [0, 1, 2] ∧
      (execute_step sanityStep nullEnv tickClock).2 = .error (.verificationFailed 2)) :=
  ⟨rfl, claim4_retry_exhaustion sanityStep nullEnv tickClock rfl
    (fun _ _ => ⟨.null, "hash0", rfl, rfl⟩)⟩

/-! ## Claim C3 -/

/-- Soundness of a singleton log produced by a completed attempt. -/
theorem log_sound_singleton (step : Step) (env : Nat → AttemptOutcome) (clock : Nat → Nat)
    (rc : Nat) (r : Json) (dh : String) (henv : env rc = .ok r dh) :
    (∀ e ∈ [mkLogEntry step clock rc r dh],
      rc ≤ e.retry_count ∧
      ∃ r' dh', env e.retry_count = .ok r' dh' ∧
        e = mkLogEntry step clock e.retry_count r' dh') ∧
    (([mkLogEntry step clock rc r dh].map (fun e => e.retry_count)).Pairwise (· < ·)) := by
  constructor
  · intro e he
    rw [List.mem_singleton] at he
    subst he
    exact ⟨Nat.le_refl rc, r, dh, henv, rfl⟩
  · simp

/-- Every entry the retry loop logs from counter `rc` on stems from a
completed (`ok`) attempt, is the canonical entry for its own retry
counter, and counters at or above `rc` appear in strictly increasing
order. -/
theorem execute_step_from_log_sound (step : Step) (env : Nat → AttemptOutcome)
    (clock : Nat → Nat) :
    ∀ n rc, step.retry_config.max_retries + 1 - rc ≤ n →
      (∀ e ∈ (execute_step_from step env clock rc).1,
        rc ≤ e.retry_count ∧
        ∃ r dh, env e.retry_count = .ok r dh ∧
          e = mkLogEntry step clock e.retry_count r dh) ∧
      ((execute_step_from step env clock rc).1.map
        (fun e => e.retry_count)).Pairwise (· < ·) := by
  intro n
  induction n with
  | zero =>
    intro rc hle
    have hge : ¬ rc < step.retry_config.max_retries := by omega
    cases henv : env rc with
    | actuatorErr msg =>
      rw [execute_step_from_actuatorErr_last step env clock rc msg henv hge]
      simp
    | snapshotErr msg =>
      rw [execute_step_from_snapshotErr step env clock rc msg henv]
      simp
    | ok r dh =>
      cases hv : (verify_step step (some r) dh).passed with
      | true =>
        rw [execute_step_from_ok_pass step env clock rc r dh henv hv]
        exact log_sound_singleton step env clock rc r dh henv
      | false =>
        rw [execute_step_from_ok_fail_last step env clock rc r dh henv hv hge]
        exact log_sound_singleton step env clock rc r dh henv
  | succ n ih =>
    intro rc hle
    cases henv : env rc with
    | actuatorErr msg =>
      by_cases hlt : rc < step.retry_config.max_retries
      · rw [execute_step_from_actuatorErr_retry step env clock rc msg henv hlt]
        have h := ih (rc + 1) (by omega)
        exact ⟨fun e he => ⟨by have := (h.1 e he).1; omega, (h.1 e he).2⟩, h.2⟩
      · rw [execute_step_from_actuatorErr_last step env clock rc msg henv hlt]
        simp
    | snapshotErr msg =>
      rw [execute_step_from_snapshotErr step env clock rc msg henv]
      simp
    | ok r dh =>
      cases hv : (verify_step step (some r) dh).passed with
      | true =>
        rw [execute_step_from_ok_pass step env clock rc r dh henv hv]
        exact log_sound_singleton step env clock rc r dh henv
      | false =>
        by_cases hlt : rc < step.retry_config.max_retries
        · rw [execute_step_from_ok_fail_retry step env clock rc r dh henv hv hlt]
          have h := ih (rc + 1) (by omega)
          constructor
          · intro e he
            rcases List.mem_cons.mp he with he | he
            · subst he
              exact ⟨Nat.le_refl rc, r, dh, henv, rfl⟩
            · exact ⟨by have := (h.1 e he).1; omega, (h.1 e he).2⟩
          · rw [List.map_cons, List.pairwise_cons]
            refine ⟨?_, h.2⟩
            intro b hb
            rw [List.mem_map] at hb
            obtain ⟨e, he, rfl⟩ := hb
            have := (h.1 e he).1
            simpa [mkLogEntry] using by omega
        · rw [execute_step_from_ok_fail_last step env clock rc r dh henv hv hlt]
          exact log_sound_singleton step env clock rc r dh henv

/-- Every completed attempt the loop actually reaches (all earlier
attempts fell through) contributes its entry to the log. -/
theorem execute_step_from_log_complete (step : Step) (env : Nat → AttemptOutcome)
    (clock : Nat → Nat) :
    ∀ k rc i r dh, i = rc + k →
      (∀ j, rc ≤ j → j < i → attempt_continues step env j = true) →
      env i = .ok r dh →
      mkLogEntry step clock i r dh ∈ (execute_step_from step env clock rc).1 := by
  intro k
  induction k with
  | zero =>
    intro rc i r dh hi hcont henv
    have hirc : i = rc := by omega
    subst hirc
    cases hv : (verify_step step (some r) dh).passed with
    | true =>
      rw [execute_step_from_ok_pass step env clock i r dh henv hv]
      exact List.mem_singleton.mpr rfl
    | false =>
      by_cases hlt : i < step.retry_config.max_retries
      · rw [execute_step_from_ok_fail_retry step env clock i r dh henv hv hlt]
        exact List.mem_cons_self _ _
      · rw [execute_step_from_ok_fail_last step env clock i r dh henv hv hlt]
        exact List.mem_singleton.mpr rfl
  | succ k ih =>
    intro rc i r dh hi hcont henv
    have hrc_lt : rc < i := by omega
    have hcrc := hcont rc (Nat.le_refl rc) hrc_lt
    unfold attempt_continues at hcrc
    cases henv2 : env rc with
    | actuatorErr msg =>
      rw [henv2] at hcrc
      simp only [decide_eq_true_eq] at hcrc
      rw [execute_step_from_actuatorErr_retry step env clock rc msg henv2 hcrc]
      exact ih (rc + 1) i r dh (by omega) (fun j hj1 hj2 => hcont j (by omega) hj2) henv
    | snapshotErr msg =>
      rw [henv2] at hcrc
      simp at hcrc
    | ok r' dh' =>
      rw [henv2] at hcrc
      simp only [Bool.and_eq_true, Bool.not_eq_true', decide_eq_true_eq] at hcrc
      obtain ⟨hv', hlt⟩ := hcrc
      rw [execute_step_from_ok_fail_retry step env clock rc r' dh' henv2 hv' hlt]
      exact List.mem_cons_of_mem _
        (ih (rc + 1) i r dh (by omega) (fun j hj1 hj2 => hcont j (by omega) hj2) henv)

/-- Claim C3, counterexample: with a zero retry budget and an actuator
that errors on its single attempt, `execute_step` performs one attempt
yet appends no execution-log entry — actuator-error attempts are not
logged, so the log is not a history of every attempt. -/
theorem claim3_actuator_error_not_logged :
    execute_step zeroRetryStep boomEnv tickClock = ([], .error (.actuatorError "boom")) ∧
    (execute_step zeroRetryStep boomEnv tickClock).1.length = 0 := by
  have h := execute_step_from_actuatorErr_last zeroRetryStep boomEnv tickClock 0 "boom"
    rfl (by decide)
  exact ⟨h, by simp [execute_step, h]⟩

/-- Claim C3 as amended: every attempt that completes its actuator call
and DOM-snapshot hash appends exactly one `ExecutionLogEntry` carrying
that attempt's retry counter — including verification-failed attempts
that are subsequently retried — while attempts aborted by an actuator or
snapshot error append nothing. Formally: (a) every logged entry is the
canonical entry of a completed attempt at its own retry counter, (b) the
logged retry counters are strictly increasing (no attempt is logged
twice), and (c) every completed attempt that the loop reaches is in the
log. -/
theorem claim3_attempt_logging (step : Step) (env : Nat → AttemptOutcome)
    (clock : Nat → Nat) :
    (∀ e ∈ (execute_step step env clock).1,
      ∃ r dh, env e.retry_count = .ok r dh ∧
        e = mkLogEntry step clock e.retry_count r dh) ∧
    ((execute_step step env clock).1.map (fun e => e.retry_count)).Pairwise (· < ·) ∧
    (∀ i r dh, (∀ j, j < i → attempt_continues step env j = true) →
      env i = .ok r dh →
      mkLogEntry step clock i r dh ∈ (execute_step step env clock).1) := by
  have hs := execute_step_from_log_sound step env clock
    (step.retry_config.max_retries + 1) 0 (by omega)
  refine ⟨fun e he => (hs.1 e he).2, hs.2, ?_⟩
  intro i r dh hcont henv
  exact execute_step_from_log_complete step env clock i 0 i r dh (by omega)
    (fun j _ hj2 => hcont j hj2) henv

/-- Witness for the amended C3 theorem: the first attempt of the sanity
fixture completes, so its entry is in the log. -/
theorem claim3_attempt_logging_witness :
    mkLogEntry sanityStep tickClock 0 .null "hash0" ∈
      (execute_step sanityStep nullEnv tickClock).1 :=
  (claim3_attempt_logging sanityStep nullEnv tickClock).2.2 0 .null "hash0"
    (fun j hj => absurd hj (Nat.not_lt_zero j)) rfl

/-! ## Claim C10 -/

/-- A successful `start_task` only rewrites the entry at its own task id. -/
theorem start_task_ok_shape (tasks : TaskMap) (task_id : String) (now : Nat)
    (m' : TaskMap) (h : start_task tasks task_id now = .ok m') :
    ∃ f, m' = mapModify tasks task_id f := by
  unfold start_task at h
  cases hcs : can_start_task tasks task_id with
  | error e =>
    rw [hcs] at h
    exact absurd h (by simp)
  | ok can =>
    rw [hcs] at h
    cases can with
    | false => simp at h
    | true =>
      cases hl : mapLookup tasks task_id with
      | none =>
        rw [hl] at h
        simp at h
      | some t =>
        rw [hl] at h
        simp at h
        exact ⟨_, h.symm⟩

/-- Processing one due entry neither creates a task under an id absent
from the task map nor disturbs a schedule entry registered under that id,
provided that id has no task. -/
theorem trigger_task_preserves_unknown (now : Nat) (id : String)
    (info : ScheduledTaskInfo) (st : SchedulerState)
    (trig : String × Nat × Option Recurrence)
    (htask : mapLookup st.tasks id = none)
    (hsched : mapLookup st.scheduled id = some info) :
    mapLookup (trigger_task now st trig).tasks id = none ∧
    mapLookup (trigger_task now st trig).scheduled id = some info := by
  unfold trigger_task
  cases hl : mapLookup st.tasks trig.1 with
  | none => exact ⟨htask, hsched⟩
  | some task =>
    have hne : trig.1 ≠ id := by
      intro he
      rw [he, htask] at hl
      exact Option.noConfusion hl
    constructor
    · dsimp only
      split
      · cases hst : start_task st.tasks trig.1 now with
        | ok m =>
          obtain ⟨f, rfl⟩ := start_task_ok_shape st.tasks trig.1 now m hst
          rw [mapLookup_mapModify_ne st.tasks trig.1 id f hne]
          exact htask
        | error e => exact htask
      · exact htask
    · dsimp only
      cases trig.2.2 with
      | none =>
        rw [mapLookup_mapRemove_ne st.scheduled trig.1 id hne]
        exact hsched
      | some recur =>
        dsimp only
        cases calculate_next_run now recur with
        | none =>
          rw [mapLookup_mapRemove_ne st.scheduled trig.1 id hne]
          exact hsched
        | some next_run =>
          rw [mapLookup_mapModify_ne st.scheduled trig.1 id _ hne]
          exact hsched

/-- The invariant of `trigger_task_preserves_unknown` is preserved by the
whole fold over the due-entry snapshot. -/
theorem foldl_trigger_preserves (now : Nat) (id : String) (info : ScheduledTaskInfo) :
    ∀ (l : List (String × Nat × Option Recurrence)) (st : SchedulerState),
      mapLookup st.tasks id = none → mapLookup st.scheduled id = some info →
      mapLookup (l.foldl (trigger_task now) st).tasks id = none ∧
      mapLookup (l.foldl (trigger_task now) st).scheduled id = some info := by
  intro l
  induction l with
  | nil => exact fun st h1 h2 => ⟨h1, h2⟩
  | cons hd tl ih =>
    intro st h1 h2
    have h := trigger_task_preserves_unknown now id info st hd h1 h2
    exact ih (trigger_task now st hd) h.1 h.2

/-- One scan preserves both halves of the orphan-entry invariant. -/
theorem scan_preserves_unknown (now : Nat) (st : SchedulerState) (id : String)
    (info : ScheduledTaskInfo)
    (htask : mapLookup st.tasks id = none)
    (hsched : mapLookup st.scheduled id = some info) :
    mapLookup (check_and_trigger_tasks now st).tasks id = none ∧
    mapLookup (check_and_trigger_tasks now st).scheduled id = some info := by
  unfold check_and_trigger_tasks
  exact foldl_trigger_preserves now id info _ st htask hsched

/-- Claim C10: a due schedule entry whose task id the task manager does
not know is neither started nor removed nor recomputed by the trigger
scan; the identical entry survives the scan, no task appears under its
id, and it is still registered, still due and still untouched after any
later scan. -/
theorem claim10_orphan_entry_stable (st : SchedulerState) (id : String)
    (info : ScheduledTaskInfo) (now : Nat)
    (hsched : mapLookup st.scheduled id = some info)
    (_htid : info.task_id = id)
    (hdue : info.next_run ≤ now)
    (htask : mapLookup st.tasks id = none) :
    mapLookup (check_and_trigger_tasks now st).scheduled id = some info ∧
    mapLookup (check_and_trigger_tasks now st).tasks id = none ∧
    (∀ now', now ≤ now' →
      info.next_run ≤ now' ∧
      mapLookup (check_and_trigger_tasks now'
        (check_and_trigger_tasks now st)).scheduled id = some info ∧
      mapLookup (check_and_trigger_tasks now'
        (check_and_trigger_tasks now st)).tasks id = none) := by
  have h1 := scan_preserves_unknown now st id info htask hsched
  refine ⟨h1.2, h1.1, fun now' hle => ?_⟩
  have h2 := scan_preserves_unknown now' (check_and_trigger_tasks now st) id info h1.1 h1.2
  exact ⟨Nat.le_trans hdue hle, h2.2, h2.1⟩

/-- Witness for C10: the orphan fixture entry (due at 50, no task) is
untouched by a scan at 60 and by a follow-up scan at 120. -/
theorem claim10_orphan_entry_witness :
    mapLookup (check_and_trigger_tasks 60 orphanSchedState).scheduled "ghost" =
      some { task_id := "ghost", next_run := 50, recurrence := none } ∧
    mapLookup (check_and_trigger_tasks 60 orphanSchedState).tasks "ghost" = none ∧
    mapLookup (check_and_trigger_tasks 120
      (check_and_trigger_tasks 60 orphanSchedState)).scheduled "ghost" =
      some { task_id := "ghost", next_run := 50, recurrence := none } := by
  have h := claim10_orphan_entry_stable orphanSchedState "ghost"
    { task_id := "ghost", next_run := 50, recurrence := none } 60
    rfl rfl (by decide) rfl
  exact ⟨h.1, h.2.1, (h.2.2 120 (by decide)).2.1⟩

end Sentinel
